import Mathlib

/-!
Shallow embedding of `src/evaluator/code_runner.py` (class `CodeRunner`):
the sandboxed compile-and-run pipeline (`compile_and_run_code`) and the
pty session loop (`_run_in_pty`).  Python strings are modelled as
`List Char`; machine reads, operator keystrokes and select timeouts are
modelled as an explicit event trace consumed by a step function that
mirrors the loop body line by line.
-/

namespace SmartTA

/-- Python strings are modelled as lists of characters. -/
abbrev Str := List Char

/-- Annotation appended at `select` timeout (code_runner.py line 136):
`"\n[SYSTEM] Execution timed out after {} seconds".format(timeout)`. -/
def timeoutMsg (t : Nat) : Str :=
  "\n[SYSTEM] Execution timed out after ".data ++ (toString t).data ++ " seconds".data

/-- Annotation appended when the operator sends the Ctrl+C byte (line 168). -/
def ctrlCMsg : Str := "\n[SYSTEM] Execution stopped by user (Ctrl+C)".data

/-- Annotation appended on a KeyboardInterrupt during the wait (line 177). -/
def kbIntMsg : Str := "\n[SYSTEM] Execution stopped by user (KeyboardInterrupt)".data

/-- Annotation appended when the child must be forcibly killed (line 187). -/
def killMsg : Str := "\n[SYSTEM] Process had to be forcibly terminated".data

/-- Lines 154-156: `output_summary += decoded_data` followed by
`if len(output_summary) > 1000: output_summary = output_summary[-1000:]`. -/
def appendCapped (summary s : Str) : Str :=
  let t := summary ++ s
  if t.length > 1000 then t.drop (t.length - 1000) else t

/-- Python slicing `l[-n:]`: the last `n` characters. -/
def lastN (n : Nat) (l : Str) : Str := l.drop (l.length - n)

/-- Outcome of `os.read(master, 1024)`: some bytes (empty meaning EOF,
line 145 `if not data`), or an `OSError`/`ValueError` (line 157). -/
inductive ReadResult
  | data (s : Str)
  | err
  deriving DecidableEq

/-- Outcome of `os.read(sys.stdin.fileno(), 1)`: one byte, or an
`OSError`/`ValueError` (line 172). -/
inductive StdinResult
  | byte (c : Char)
  | err
  deriving DecidableEq

/-- One iteration's readiness outcome from `select.select([master, sys.stdin],
[], [], timeout)`: master ready, stdin ready, both ready (master is first in
the returned list), or a KeyboardInterrupt raised during the wait. -/
inductive IterEvent
  | masterOnly (r : ReadResult)
  | stdinOnly (r : StdinResult)
  | both (rm : ReadResult) (rs : StdinResult)
  | kbInterrupt
  deriving DecidableEq

/-- The loop variables of `_run_in_pty` (lines 126-127), plus `done`
marking a `break` out of the `while` (the timeout path, line 138) and
`termSentInLoop` recording the `process.terminate()` of line 137. -/
structure LoopState where
  output_summary : Str
  running : Bool
  done : Bool
  termSentInLoop : Bool
  deriving DecidableEq

/-- Initial loop state: `output_summary = ""`, `running = True` (lines 126-127). -/
def initState : LoopState := ⟨[], true, false, false⟩

/-- Branch for `ready_fd == master` (lines 141-159): empty read or I/O error
stops the loop; otherwise the chunk is appended to the capped summary. -/
def handleMaster (st : LoopState) (r : ReadResult) : LoopState :=
  match r with
  | .data s =>
      if s = [] then { st with running := false }
      else { st with output_summary := appendCapped st.output_summary s }
  | .err => { st with running := false }

/-- Branch for `ready_fd == sys.stdin` (lines 161-173): the Ctrl+C byte
appends an annotation (uncapped) and stops the loop; any other byte is
forwarded to the child; a read error is swallowed by `pass`. -/
def handleStdin (st : LoopState) (r : StdinResult) : LoopState :=
  match r with
  | .byte c =>
      if c = Char.ofNat 3 then
        { st with output_summary := st.output_summary ++ ctrlCMsg, running := false }
      else st
  | .err => st

/-- One pass over the `for ready_fd in rlist` body (lines 140-173) together
with the surrounding `except KeyboardInterrupt` (lines 175-178).  When both
descriptors are ready, master is handled first and a `break` there skips
the stdin branch. -/
def stepIter (st : LoopState) (ev : IterEvent) : LoopState :=
  match ev with
  | .masterOnly r => handleMaster st r
  | .stdinOnly r => handleStdin st r
  | .both rm rs =>
      let st1 := handleMaster st rm
      if st1.running then handleStdin st1 rs else st1
  | .kbInterrupt =>
      { st with output_summary := st.output_summary ++ kbIntMsg, running := false }

/-- The `if not rlist` timeout branch (lines 134-138): append the timeout
annotation (uncapped), call `process.terminate()`, and `break`. -/
def timeoutStep (timeout : Nat) (st : LoopState) : LoopState :=
  { st with output_summary := st.output_summary ++ timeoutMsg timeout
            termSentInLoop := true
            done := true }

/-- The `while running` loop (lines 129-178) with wall-clock accounting.
The trace lists the external events in order, each tagged with the delay
from the start of its `select` call; every `select` call is issued with
the full `timeout` argument (line 132), so an event is delivered when its
delay is below `timeout` and otherwise the timeout branch fires after
exactly `timeout` seconds.  Returns the final loop state and the total
elapsed wall-clock time. -/
def runLoop (timeout : Nat) : List (Nat × IterEvent) → LoopState → LoopState × Nat
  | [], st =>
      if st.running && !st.done then (timeoutStep timeout st, timeout) else (st, 0)
  | (d, ev) :: rest, st =>
      if st.running && !st.done then
        if d < timeout then
          let r := runLoop timeout rest (stepIter st ev)
          (r.1, d + r.2)
        else (timeoutStep timeout st, timeout)
      else (st, 0)

/-- Behaviour of the child process, abstracting `subprocess.Popen`:
`exitedAtLoopEnd` is what `process.poll()` reports when the loop ends
(`some c` when the child has already exited with code `c`), and
`sigtermExit` says whether (and after how many seconds, with which code)
the child would exit once sent SIGTERM by `process.terminate()`. -/
structure Child where
  exitedAtLoopEnd : Option Int
  sigtermExit : Option (Nat × Int)
  deriving DecidableEq

/-- Result of the post-loop escalation (lines 180-187) plus which signals
were sent: `return_code` is `process.returncode` as later read at
lines 198 and 208 (`none` models Python `None`, which `kill()` leaves in
place because no further `wait` is performed). -/
structure PostResult where
  output_summary : Str
  return_code : Option Int
  termSent : Bool
  killSent : Bool
  deriving DecidableEq

/-- Lines 180-187: if `process.poll()` is `None`, `terminate()` then
`wait(timeout=5)`; on `TimeoutExpired`, `kill()` and annotate the summary. -/
def drainChild (child : Child) (summary : Str) : PostResult :=
  match child.exitedAtLoopEnd with
  | some c => ⟨summary, some c, false, false⟩
  | none =>
      match child.sigtermExit with
      | some (d, c) =>
          if d ≤ 5 then ⟨summary, some c, true, false⟩
          else ⟨summary ++ killMsg, none, true, true⟩
      | none => ⟨summary ++ killMsg, none, true, true⟩

/-- Rendering of `process.returncode` inside the f-string of line 198
(`None` prints as `"None"`). -/
def rcRepr : Option Int → Str
  | some n => (toString n).data
  | none => "None".data

/-- Line 198: `"Completed" if process.returncode == 0 else
f"Terminated with code {process.returncode}"`. -/
def statusString (rc : Option Int) : Str :=
  if rc = some 0 then "Completed".data
  else "Terminated with code ".data ++ rcRepr rc

/-- The dict returned by `_run_in_pty` (lines 205-210 and 214-219). -/
structure RunResult where
  compiled : Bool
  output_summary : Str
  return_code : Option Int
  execution_status : Str
  deriving DecidableEq

/-- The non-raising execution of `_run_in_pty` after process start: run the
loop on the event trace, escalate on a still-live child, and build the
result dict (lines 129-210).  Also returns the elapsed wall-clock time of
the loop. -/
def run_in_pty (timeout : Nat) (trace : List (Nat × IterEvent)) (child : Child) :
    RunResult × Nat :=
  let r := runLoop timeout trace initState
  let post := drainChild child r.1.output_summary
  (⟨true, post.output_summary, post.return_code, statusString post.return_code⟩, r.2)

/-- The `except Exception` branch of `_run_in_pty` (lines 212-219): the
exception text `str(e)` is embedded whole, not truncated. -/
def run_in_pty_exn (msg : Str) : RunResult :=
  ⟨true,
   "[SYSTEM ERROR] Unexpected error during execution: ".data ++ msg,
   some (-1),
   "System Error".data⟩

/-- Terminal-mode operations performed on `sys.stdin` by `_run_in_pty`:
`termios.tcgetattr` (line 101), `tty.setraw` (line 123), and
`termios.tcsetattr(..., old_stdin_settings)` (lines 190 and 224). -/
inductive TermOp
  | tcgetattr
  | setraw
  | tcsetattrSaved
  deriving DecidableEq

/-- How far the body of `_run_in_pty` gets before an exception, if any:
`normal` is the no-exception path; `raisesBeforeRaw` is an exception
between the `try` of line 103 and the `tty.setraw` of line 123;
`raisesMidLoop` is an exception after raw mode was entered. -/
inductive PtyPath
  | normal
  | raisesBeforeRaw
  | raisesMidLoop
  deriving DecidableEq

/-- The sequence of terminal-mode operations each path performs: the
normal path restores at line 190 and again in the `finally` of line 224;
every exception path restores only in the `finally`. -/
def termOps : PtyPath → List TermOp
  | .normal => [.tcgetattr, .setraw, .tcsetattrSaved, .tcsetattrSaved]
  | .raisesBeforeRaw => [.tcgetattr, .tcsetattrSaved]
  | .raisesMidLoop => [.tcgetattr, .setraw, .tcsetattrSaved]

/-- Semantics of a terminal-mode operation on the current mode, given the
mode saved by `tcgetattr` (`saved`) and the raw mode `tty.setraw`
installs (`raw`).  Modes are termios attribute lists. -/
def applyTermOp (saved raw : List Nat) (m : List Nat) : TermOp → List Nat
  | .tcgetattr => m
  | .setraw => raw
  | .tcsetattrSaved => saved

/-- The controlling terminal's mode after `_run_in_pty` runs down one of
its paths, starting from mode `init`; `tcgetattr` captured `init`. -/
def finalTermMode (raw : List Nat) (p : PtyPath) (init : List Nat) : List Nat :=
  (termOps p).foldl (applyTermOp init raw) init

/-- The Python f-string of line 55:
`f'g++ -std=c++11 -o {sandbox_dir}/program {file_path}'` — verbatim
textual interpolation, no quoting or escaping. -/
def compile_command (sandbox_dir file_path : Str) : Str :=
  "g++ -std=c++11 -o ".data ++ sandbox_dir ++ "/program ".data ++ file_path

/-- The Python f-string of line 75: `f'{sandbox_dir}/program'`. -/
def run_command (sandbox_dir : Str) : Str := sandbox_dir ++ "/program".data

/-- A command handed to `subprocess` together with its `shell` flag. -/
structure ShellCall where
  cmd : Str
  shell : Bool
  deriving DecidableEq

/-- Line 56-61: `subprocess.run(compile_command, shell=True, ...)`. -/
def compile_call (sandbox_dir file_path : Str) : ShellCall :=
  ⟨compile_command sandbox_dir file_path, true⟩

/-- Lines 110-117: `subprocess.Popen(command, shell=True, ...)`. -/
def run_call (sandbox_dir : Str) : ShellCall :=
  ⟨run_command sandbox_dir, true⟩

/-- The file name component after the last slash, as `shutil.copy` uses to
name the copy inside a destination directory. -/
def basename (p : Str) : Str := (p.reverse.takeWhile (· ≠ '/')).reverse

/-- Destination of `shutil.copy(file_path, sandbox_dir)` (line 51): the
basename of the source placed inside the sandbox directory. -/
def copyDest (sandbox_dir file_path : Str) : Str :=
  sandbox_dir ++ '/' :: basename file_path

/-- Observable actions of `compile_and_run_code`, in program order. -/
inductive Action
  | makedirs (dir : Str)
  | copy (src dst : Str)
  | runShell (c : ShellCall)
  | rmtree (dir : Str)
  deriving DecidableEq

/-- The action sequence of `compile_and_run_code` on the successful path
for a C/C++ file (lines 47, 51, 56, 110, 87): create the sandbox, copy the
source in, compile, run, remove the sandbox. -/
def compile_and_run_trace (sandbox_dir file_path : Str) : List Action :=
  [ .makedirs sandbox_dir,
    .copy file_path sandbox_dir,
    .runShell (compile_call sandbox_dir file_path),
    .runShell (run_call sandbox_dir),
    .rmtree sandbox_dir ]

/-- Helper for splitting a shell command into words: `cur` holds the
reversed characters of the token being built. -/
def shellSplitGo : Str → Str → List Str
  | [], cur => if cur = [] then [] else [cur.reverse]
  | c :: rest, cur =>
      if c = ' ' then
        if cur = [] then shellSplitGo rest []
        else cur.reverse :: shellSplitGo rest []
      else shellSplitGo rest (c :: cur)

/-- POSIX-shell word splitting of a simple command on (unquoted) spaces:
the argument vector the shell builds from the command text. -/
def shellSplit (s : Str) : List Str := shellSplitGo s []

/-- What `compile_and_run_code`'s `try` body produces, abstracting the
environment: an exception during copy/compile setup, an unsupported
extension, a failing compiler with its stderr text, or a completed
`_run_in_pty` call (which handles its own exceptions and returns a dict). -/
inductive BodyStep
  | bodyRaises (msg : Str)
  | unsupportedFile
  | compileFails (stderr : Str)
  | compiles (r : RunResult)
  deriving DecidableEq

/-- The dict `compile_and_run_code` returns, one variant per `return`
site: lines 69-72 (compilation failure, stderr truncated to 500), line 77
(unsupported file type), line 79 (the `_run_in_pty` result), and line 83
(the `except Exception` branch, message truncated to 500). -/
inductive ExecResult
  | compileFailed (excerpt : Str)
  | unsupported
  | ran (r : RunResult)
  | execError (msg : Str)
  deriving DecidableEq

/-- Mapping from what the `try` body does to the returned dict
(lines 49-83). -/
def bodyResult : BodyStep → ExecResult
  | .bodyRaises m => .execError (m.take 500)
  | .unsupportedFile => .unsupported
  | .compileFails stderr => .compileFailed (stderr.take 500)
  | .compiles r => .ran r

/-- The whole of `compile_and_run_code` as seen by the sandbox directory:
`os.makedirs` (line 47) creates it, the `try` body runs, and the `finally`
(line 87) calls `shutil.rmtree(sandbox_dir, ignore_errors=True)` — the
directory survives exactly when that deletion fails, and a deletion
failure never changes the returned dict.  Returns the dict and whether
the sandbox directory still exists afterwards. -/
def compile_and_run_code (step : BodyStep) (rmtreeFails : Bool) : ExecResult × Bool :=
  let res := bodyResult step
  let dirExistsAfter := if rmtreeFails then true else false
  (res, dirExistsAfter)

/-! Helper lemmas about the rolling transcript cap, the timed loop and
shell word splitting. -/

theorem appendCapped_def (s c : Str) :
    appendCapped s c =
      if (s ++ c).length > 1000 then (s ++ c).drop ((s ++ c).length - 1000)
      else s ++ c := rfl

theorem lastN_eq_reverse (n : Nat) (l : Str) :
    lastN n l = (l.reverse.take n).reverse :=
  List.rtake_eq_reverse_take_reverse l n

theorem lastN_of_length_le {n : Nat} {l : Str} (h : l.length ≤ n) : lastN n l = l := by
  unfold lastN
  rw [Nat.sub_eq_zero_of_le h, List.drop_zero]

theorem length_lastN (n : Nat) (l : Str) : (lastN n l).length ≤ n := by
  simp only [lastN, List.length_drop]
  omega

theorem appendCapped_eq_lastN (s c : Str) :
    appendCapped s c = lastN 1000 (s ++ c) := by
  rw [appendCapped_def, lastN]
  split
  · rfl
  · next h =>
      rw [Nat.sub_eq_zero_of_le (by omega), List.drop_zero]

theorem length_appendCapped (s c : Str) : (appendCapped s c).length ≤ 1000 := by
  rw [appendCapped_eq_lastN]
  exact length_lastN 1000 (s ++ c)

theorem take_append_take {α : Type} (n : Nat) (a b : List α) :
    (a ++ b.take n).take n = (a ++ b).take n := by
  rw [List.take_append_eq_append_take, List.take_append_eq_append_take, List.take_take,
    Nat.min_eq_left (Nat.sub_le n a.length)]

theorem lastN_append_lastN (n : Nat) (s c : Str) :
    lastN n (lastN n s ++ c) = lastN n (s ++ c) := by
  simp only [lastN_eq_reverse, List.reverse_append, List.reverse_reverse]
  rw [take_append_take]

theorem runLoop_elapsed_le (timeout : Nat) :
    ∀ (trace : List (Nat × IterEvent)) (st : LoopState),
      (runLoop timeout trace st).2 ≤ (trace.length + 1) * timeout := by
  intro trace
  induction trace with
  | nil =>
      intro st
      simp only [runLoop, List.length_nil]
      split
      · simp
      · simp
  | cons p rest ih =>
      intro st
      obtain ⟨d, ev⟩ := p
      simp only [runLoop, List.length_cons]
      split
      · split
        · next hd =>
            have h1 := ih (stepIter st ev)
            have h2 : (rest.length + 1 + 1) * timeout
                = timeout + (rest.length + 1) * timeout := by ring
            simpa [h2] using Nat.add_le_add (Nat.le_of_lt hd) h1
        · have h3 : 1 * timeout ≤ (rest.length + 1 + 1) * timeout :=
            Nat.mul_le_mul_right timeout (by omega)
          simpa using h3
      · simp

theorem runLoop_cons_active (timeout d : Nat) (ev : IterEvent)
    (rest : List (Nat × IterEvent)) (st : LoopState)
    (hrun : st.running = true) (hdone : st.done = false) (hd : d < timeout) :
    runLoop timeout ((d, ev) :: rest) st
      = ((runLoop timeout rest (stepIter st ev)).1,
         d + (runLoop timeout rest (stepIter st ev)).2) := by
  rw [runLoop, hrun, hdone]
  simp [hd]

theorem runLoop_data_chunks (timeout : Nat) (ht : 0 < timeout) :
    ∀ (chunks : List Str) (s : Str), (∀ c ∈ chunks, c ≠ []) → s.length ≤ 1000 →
      runLoop timeout
        (chunks.map (fun c => (0, IterEvent.masterOnly (ReadResult.data c)))
          ++ [(0, IterEvent.masterOnly (ReadResult.data []))])
        ⟨s, true, false, false⟩
      = (⟨lastN 1000 (s ++ chunks.flatten), false, false, false⟩, 0) := by
  intro chunks
  induction chunks with
  | nil =>
      intro s _ hs
      simp only [List.map_nil, List.nil_append, List.flatten_nil, List.append_nil]
      rw [lastN_of_length_le hs]
      simp [runLoop, ht, stepIter, handleMaster]
  | cons c rest ih =>
      intro s h hs
      have hc : c ≠ [] := h c (List.mem_cons_self c rest)
      have hrest : ∀ x ∈ rest, x ≠ [] := fun x hx => h x (List.mem_cons_of_mem c hx)
      have hstep : stepIter ⟨s, true, false, false⟩
          (IterEvent.masterOnly (ReadResult.data c))
          = ⟨appendCapped s c, true, false, false⟩ := by
        simp [stepIter, handleMaster, hc]
      have hlen : (appendCapped s c).length ≤ 1000 := length_appendCapped s c
      have hrec := ih (appendCapped s c) hrest hlen
      simp only [List.map_cons, List.cons_append]
      rw [runLoop_cons_active timeout 0 _ _ _ rfl rfl ht, hstep, hrec]
      rw [appendCapped_eq_lastN, lastN_append_lastN]
      simp [List.append_assoc]

theorem shellSplitGo_no_space :
    ∀ (s cur : Str), (' ' ∈ cur → False) →
      ∀ t ∈ shellSplitGo s cur, ' ' ∈ t → False := by
  intro s
  induction s with
  | nil =>
      intro cur hc t ht hsp
      unfold shellSplitGo at ht
      split at ht
      · simp at ht
      · simp only [List.mem_singleton] at ht
        subst ht
        exact hc (List.mem_reverse.mp hsp)
  | cons c rest ih =>
      intro cur hc t ht hsp
      unfold shellSplitGo at ht
      split at ht
      · split at ht
        · exact ih [] (by simp) t ht hsp
        · rcases List.mem_cons.mp ht with h1 | h1
          · subst h1
            exact hc (List.mem_reverse.mp hsp)
          · exact ih [] (by simp) t h1 hsp
      · next hcne =>
          refine ih (c :: cur) ?_ t ht hsp
          intro hmem
          rcases List.mem_cons.mp hmem with h1 | h1
          · exact hcne h1.symm
          · exact hc h1

theorem shellSplit_no_space (s : Str) : ∀ t ∈ shellSplit s, ' ' ∈ t → False :=
  shellSplitGo_no_space s [] (by simp)

/-! Claim theorems. -/

set_option maxRecDepth 10000

/-- C1 is false as stated: the multiplex wait of line 132 passes the full
`timeout` to every `select` call, so the budget is reset at each event
rather than decremented.  With `timeout = 10`, a single program-output
event arriving after 9 seconds makes the following wait last another full
10 seconds, so the session times out only after 19 seconds of wall-clock
time — not within a 2-second overhead of the 10-second deadline. -/
theorem c1_counterexample :
    (run_in_pty 10 [(9, IterEvent.masterOnly (ReadResult.data "x".data))]
        ⟨none, some (1, -15)⟩).2 = 19
  ∧ ¬ (19 : Nat) < 10 + 2 := by
  constructor <;> decide

/-- C1 amended: every individual `select` wait is bounded by the full
configured timeout (which resets at each event), so the loop's total
wall-clock time is bounded by `(events + 1) * timeout` rather than by
`timeout`; when no event ever arrives the timeout branch fires after
exactly `timeout` seconds with `process.terminate()` called, and a child
still alive when the loop ends is always sent the termination signal. -/
theorem c1_amended :
    (∀ (timeout : Nat) (trace : List (Nat × IterEvent)) (st : LoopState),
        (runLoop timeout trace st).2 ≤ (trace.length + 1) * timeout)
  ∧ (∀ timeout : Nat,
        runLoop timeout [] initState = (timeoutStep timeout initState, timeout))
  ∧ (∀ (timeout : Nat) (st : LoopState),
        (timeoutStep timeout st).termSentInLoop = true)
  ∧ (∀ (child : Child) (s : Str),
        child.exitedAtLoopEnd = none → (drainChild child s).termSent = true) := by
  refine ⟨runLoop_elapsed_le, fun _ => rfl, fun _ _ => rfl, ?_⟩
  intro child s h
  obtain ⟨e, sg⟩ := child
  cases h
  cases sg with
  | none => rfl
  | some p =>
      obtain ⟨d, c⟩ := p
      show (if d ≤ 5 then (⟨s, some c, true, false⟩ : PostResult)
            else ⟨s ++ killMsg, none, true, true⟩).termSent = true
      split <;> rfl

/-- C1 amended witness at a concrete child that is still alive at loop
end: the termination signal is sent. -/
theorem c1_amended_witness :
    (⟨none, none⟩ : Child).exitedAtLoopEnd = none
  ∧ (drainChild ⟨none, none⟩ []).termSent = true :=
  ⟨rfl, c1_amended.2.2.2 ⟨none, none⟩ [] rfl⟩

/-- C2 is false as stated: line 198 computes the status solely from the
exit code (`"Completed" if process.returncode == 0 else f"Terminated with
code ..."`).  A child that exits on its own through the normal
end-of-output path with exit code 1 is reported `"Terminated with code
1"`, not `"Completed"`, and no `TerminatedByTimeout`,
`TerminatedByInterrupt` or `ForciblyKilled` tags exist. -/
theorem c2_counterexample :
    (run_in_pty 300
        [(0, IterEvent.masterOnly (ReadResult.data "hi".data)),
         (0, IterEvent.masterOnly (ReadResult.data []))]
        ⟨some 1, none⟩).1.return_code = some 1
  ∧ (run_in_pty 300
        [(0, IterEvent.masterOnly (ReadResult.data "hi".data)),
         (0, IterEvent.masterOnly (ReadResult.data []))]
        ⟨some 1, none⟩).1.execution_status ≠ "Completed".data := by
  constructor <;> decide

/-- C2 amended: the status string distinguishes only the exit code, not
the terminating condition — it is `"Completed"` exactly when
`process.returncode` is 0, and `"Terminated with code {rc}"` for every
other return code (including `None` after a forced kill); the result's
`execution_status` field is always computed this way from its
`return_code` field. -/
theorem c2_amended :
    (∀ rc : Option Int, statusString rc = "Completed".data ↔ rc = some 0)
  ∧ (∀ rc : Option Int, rc ≠ some 0 →
        statusString rc = "Terminated with code ".data ++ rcRepr rc)
  ∧ (∀ (timeout : Nat) (trace : List (Nat × IterEvent)) (child : Child),
        (run_in_pty timeout trace child).1.execution_status
          = statusString (run_in_pty timeout trace child).1.return_code) := by
  refine ⟨?_, ?_, fun _ _ _ => rfl⟩
  · intro rc
    constructor
    · intro h
      by_contra hne
      rw [statusString, if_neg hne] at h
      have h1 : ("Terminated with code ".data ++ rcRepr rc).head? = some 'T' := rfl
      rw [h] at h1
      exact absurd h1 (by decide)
    · intro h
      subst h
      rfl
  · intro rc h
    rw [statusString, if_neg h]

/-- C2 amended witness at the concrete return code 1: the status is not
`"Completed"` but the generic terminated-with-code string. -/
theorem c2_amended_witness :
    (some 1 : Option Int) ≠ some 0
  ∧ statusString (some 1) = "Terminated with code ".data ++ rcRepr (some 1) :=
  ⟨by decide, c2_amended.2.1 (some 1) (by decide)⟩

/-- C4 is false as stated: on the no-exception path the saved terminal
mode is restored twice — once at line 190 and once more in the `finally`
of line 224 — not exactly once. -/
theorem c4_counterexample :
    ¬ (termOps PtyPath.normal).count TermOp.tcsetattrSaved = 1 := by
  decide

/-- C4 amended: on every path of `_run_in_pty` (normal, exception before
raw mode, exception mid-session) the final terminal mode is bit-identical
to the initial mode, and the saved mode is restored at least once — twice
on the normal path (line 190 and the `finally`), once on each exception
path (the `finally` alone). -/
theorem c4_amended : ∀ (p : PtyPath) (initMode raw : List Nat),
    finalTermMode raw p initMode = initMode
  ∧ 1 ≤ (termOps p).count TermOp.tcsetattrSaved
  ∧ (termOps PtyPath.normal).count TermOp.tcsetattrSaved = 2
  ∧ (termOps PtyPath.raisesMidLoop).count TermOp.tcsetattrSaved = 1 := by
  intro p initMode raw
  refine ⟨?_, ?_, by decide, by decide⟩
  · cases p <;> rfl
  · cases p <;> decide

/-- C5: on every body outcome of `compile_and_run_code` (exception,
unsupported file, compilation failure, completed run) the `finally` of
line 87 removes the sandbox directory, so it does not exist afterwards
when the deletion succeeds; and a deletion failure (`ignore_errors=True`)
is swallowed — it never changes the returned dict. -/
theorem c5 : ∀ step : BodyStep,
    (compile_and_run_code step false).2 = false
  ∧ (compile_and_run_code step true).1 = (compile_and_run_code step false).1 :=
  fun _ => ⟨rfl, rfl⟩

/-- C7 is false as stated: an I/O error on the operator-input descriptor
(lines 172-173) is swallowed by `pass` — the loop state is unchanged and
`running` stays `true`, so the session does not end. -/
theorem c7_counterexample :
    stepIter initState (IterEvent.stdinOnly StdinResult.err) = initState
  ∧ initState.running = true
  ∧ ¬ (stepIter initState (IterEvent.stdinOnly StdinResult.err)).running = false := by
  refine ⟨rfl, rfl, by decide⟩

/-- C7 amended: the two descriptors are treated asymmetrically — an I/O
error while reading the pty master (lines 157-159) ends the session
(`running := false`), but an I/O error while reading operator input
(lines 172-173) is silently ignored and the loop continues with the state
unchanged. -/
theorem c7_amended : ∀ st : LoopState,
    (handleMaster st ReadResult.err).running = false
  ∧ handleStdin st StdinResult.err = st
  ∧ stepIter st (IterEvent.stdinOnly StdinResult.err) = st :=
  fun _ => ⟨rfl, rfl, rfl⟩

/-- C3 is false as stated: only program output is run through the
1000-character cap (lines 154-156); the system annotations of lines 136,
168, 177 and 187 are appended with a plain `+=` and the summary is never
re-truncated afterwards.  A program that writes 1100 characters and is
then interrupted with Ctrl+C yields a transcript excerpt of 1044
characters (the capped 1000 plus the 44-character annotation). -/
theorem c3_counterexample :
    (run_in_pty 300
        [(0, IterEvent.masterOnly (ReadResult.data (List.replicate 1100 'a'))),
         (0, IterEvent.stdinOnly (StdinResult.byte (Char.ofNat 3)))]
        ⟨none, some (1, -15)⟩).1.output_summary.length = 1044
  ∧ ¬ (run_in_pty 300
        [(0, IterEvent.masterOnly (ReadResult.data (List.replicate 1100 'a'))),
         (0, IterEvent.stdinOnly (StdinResult.byte (Char.ofNat 3)))]
        ⟨none, some (1, -15)⟩).1.output_summary.length ≤ 1000 := by
  constructor <;> decide

/-- C3 amended: the rolling buffer holds exactly the most recent 1000
characters of program output — a program that writes its output in any
sequence of chunks and then exits on its own yields an excerpt equal to
the last 1000 characters of the concatenated output (all of it when
shorter), and that excerpt is at most 1000 characters; the bound can be
exceeded only by system annotations appended afterwards. -/
theorem c3_amended : ∀ (timeout : Nat) (chunks : List Str) (ec : Int),
    0 < timeout → (∀ c ∈ chunks, c ≠ []) →
    (run_in_pty timeout
        (chunks.map (fun c => (0, IterEvent.masterOnly (ReadResult.data c)))
          ++ [(0, IterEvent.masterOnly (ReadResult.data []))])
        ⟨some ec, none⟩).1.output_summary = lastN 1000 chunks.flatten
  ∧ (run_in_pty timeout
        (chunks.map (fun c => (0, IterEvent.masterOnly (ReadResult.data c)))
          ++ [(0, IterEvent.masterOnly (ReadResult.data []))])
        ⟨some ec, none⟩).1.output_summary.length ≤ 1000
  ∧ (run_in_pty timeout
        (chunks.map (fun c => (0, IterEvent.masterOnly (ReadResult.data c)))
          ++ [(0, IterEvent.masterOnly (ReadResult.data []))])
        ⟨some ec, none⟩).1.return_code = some ec := by
  intro timeout chunks ec ht hne
  have h := runLoop_data_chunks timeout ht chunks [] hne (by simp)
  rw [List.nil_append] at h
  have hr : (run_in_pty timeout
      (chunks.map (fun c => (0, IterEvent.masterOnly (ReadResult.data c)))
        ++ [(0, IterEvent.masterOnly (ReadResult.data []))])
      ⟨some ec, none⟩).1
      = ⟨true, lastN 1000 chunks.flatten, some ec, statusString (some ec)⟩ := by
    unfold run_in_pty
    rw [show initState = (⟨[], true, false, false⟩ : LoopState) from rfl, h]
    rfl
  rw [hr]
  exact ⟨rfl, length_lastN 1000 chunks.flatten, rfl⟩

/-- C3 amended witness: two 600-character chunks followed by a normal
exit yield exactly the last 1000 characters of the 1200 written. -/
theorem c3_amended_witness :
    (0 : Nat) < 1
  ∧ (∀ c ∈ [List.replicate 600 'a', List.replicate 600 'b'], c ≠ ([] : Str))
  ∧ (run_in_pty 1
        (([List.replicate 600 'a', List.replicate 600 'b'] : List Str).map
            (fun c => (0, IterEvent.masterOnly (ReadResult.data c)))
          ++ [(0, IterEvent.masterOnly (ReadResult.data []))])
        ⟨some 0, none⟩).1.output_summary
      = lastN 1000 ([List.replicate 600 'a', List.replicate 600 'b'] : List Str).flatten :=
  ⟨by decide, by decide,
   (c3_amended 1 [List.replicate 600 'a', List.replicate 600 'b'] 0
      (by decide) (by decide)).1⟩

/-- C6 is false as stated: line 51 copies the source into the sandbox,
but the compiler command of line 55 interpolates the caller-supplied
original path, not the workspace copy — at sandbox `/tmp/sb` and source
`/home/u/a.cpp`, the copy `/tmp/sb/a.cpp` does not occur in the compile
command at all, while the original path does. -/
theorem c6_counterexample :
    ¬ (copyDest "/tmp/sb".data "/home/u/a.cpp".data
        <:+: compile_command "/tmp/sb".data "/home/u/a.cpp".data)
  ∧ "/home/u/a.cpp".data <:+ compile_command "/tmp/sb".data "/home/u/a.cpp".data := by
  constructor <;> decide

/-- C6 amended: the source file is copied into the sandbox before the
compiler runs, but compilation consumes the caller-supplied original path
(embedded verbatim as a suffix of the compile command), not the workspace
copy — so the run is not isolated from concurrent mutation of the
original. -/
theorem c6_amended : ∀ sandbox_dir file_path : Str,
    compile_and_run_trace sandbox_dir file_path =
      [Action.makedirs sandbox_dir,
       Action.copy file_path sandbox_dir,
       Action.runShell (compile_call sandbox_dir file_path),
       Action.runShell (run_call sandbox_dir),
       Action.rmtree sandbox_dir]
  ∧ file_path <:+ compile_command sandbox_dir file_path
  ∧ (compile_call sandbox_dir file_path).cmd = compile_command sandbox_dir file_path := by
  intro sandbox_dir file_path
  refine ⟨rfl, ?_, rfl⟩
  exact ⟨"g++ -std=c++11 -o ".data ++ sandbox_dir ++ "/program ".data, by
    simp [compile_command, List.append_assoc]⟩

/-- C8: the post-loop escalation of lines 180-187 sends a child still
alive at loop end a graceful SIGTERM and waits up to 5 seconds; a child
exiting within the grace period is never killed and its exit code is
reported; only a child still alive after the grace period is forcibly
killed, with the transcript annotated; a child that exited on its own has
its real exit code passed through verbatim, while a forced kill leaves
`process.returncode` as the `None` sentinel, distinct from every real
exit code. -/
theorem c8 : ∀ (child : Child) (s : Str),
    (∀ c, child.exitedAtLoopEnd = some c →
       drainChild child s = ⟨s, some c, false, false⟩)
  ∧ (child.exitedAtLoopEnd = none →
       (drainChild child s).termSent = true
     ∧ (∀ d c, child.sigtermExit = some (d, c) → d ≤ 5 →
          drainChild child s = ⟨s, some c, true, false⟩)
     ∧ (∀ d c, child.sigtermExit = some (d, c) → 5 < d →
          drainChild child s = ⟨s ++ killMsg, none, true, true⟩)
     ∧ (child.sigtermExit = none →
          drainChild child s = ⟨s ++ killMsg, none, true, true⟩))
  ∧ (∀ c : Int, (drainChild ⟨none, none⟩ s).return_code ≠ some c) := by
  intro child s
  obtain ⟨e, sg⟩ := child
  refine ⟨?_, ?_, fun c h => by cases h⟩
  · intro c h
    cases h
    rfl
  · intro h
    cases h
    cases sg with
    | none =>
        refine ⟨rfl, ?_, ?_, fun _ => rfl⟩
        · intro d c h
          exact absurd h (by simp)
        · intro d c h
          exact absurd h (by simp)
    | some p =>
        obtain ⟨d, c⟩ := p
        have hif : drainChild ⟨none, some (d, c)⟩ s
            = if d ≤ 5 then (⟨s, some c, true, false⟩ : PostResult)
              else ⟨s ++ killMsg, none, true, true⟩ := rfl
        refine ⟨?_, ?_, ?_, fun h => by cases h⟩
        · rw [hif]
          split <;> rfl
        · intro d' c' h hle
          cases h
          rw [hif, if_pos hle]
        · intro d' c' h hgt
          cases h
          rw [hif, if_neg (by omega)]

/-- C8 witness at concrete children: one that exited on its own with code
7 keeps its exit code; one still alive that ignores SIGTERM for 6 seconds
is killed, annotated, and left with the `None` return code. -/
theorem c8_witness :
    (⟨some 7, none⟩ : Child).exitedAtLoopEnd = some 7
  ∧ drainChild ⟨some 7, none⟩ "ab".data = ⟨"ab".data, some 7, false, false⟩
  ∧ (⟨none, some (6, 0)⟩ : Child).sigtermExit = some (6, 0)
  ∧ (5 : Nat) < 6
  ∧ drainChild ⟨none, some (6, 0)⟩ "ab".data
      = ⟨"ab".data ++ killMsg, none, true, true⟩ :=
  ⟨rfl, (c8 ⟨some 7, none⟩ "ab".data).1 7 rfl, rfl, by decide,
   ((c8 ⟨none, some (6, 0)⟩ "ab".data).2.1 rfl).2.2.1 6 0 rfl (by decide)⟩

/-- C9 is false as stated: the `except Exception` handler of
`_run_in_pty` (lines 212-219) embeds the full `str(e)` into the result
without truncation — a 501-character exception message appears whole in
the output summary, which then exceeds 500 characters. -/
theorem c9_counterexample :
    List.replicate 501 'a' <:+ (run_in_pty_exn (List.replicate 501 'a')).output_summary
  ∧ ¬ (run_in_pty_exn (List.replicate 501 'a')).output_summary.length ≤ 500 := by
  constructor <;> decide

/-- C9 amended: any exception in the Running/Draining phase is caught and
mapped to a System Error result (no exception reaches the caller), the
terminal mode is still restored by the `finally` (exactly once on that
path), but the embedded message is not truncated inside `_run_in_pty`;
the 500-character truncation applies only to exceptions caught at the
`compile_and_run_code` boundary (line 83). -/
theorem c9_amended : ∀ msg : Str,
    (run_in_pty_exn msg).execution_status = "System Error".data
  ∧ (run_in_pty_exn msg).return_code = some (-1)
  ∧ (run_in_pty_exn msg).compiled = true
  ∧ msg <:+ (run_in_pty_exn msg).output_summary
  ∧ bodyResult (BodyStep.bodyRaises msg) = ExecResult.execError (msg.take 500)
  ∧ (msg.take 500).length ≤ 500
  ∧ (termOps PtyPath.raisesMidLoop).count TermOp.tcsetattrSaved = 1 := by
  intro msg
  refine ⟨rfl, rfl, rfl,
    ⟨"[SYSTEM ERROR] Unexpected error during execution: ".data, rfl⟩,
    rfl, ?_, by decide⟩
  simp [List.length_take]

/-- C10: both subprocess invocations are shell commands (`shell=True`)
built by verbatim textual interpolation of the unquoted sandbox and
source-file paths into a format string, with no quoting or escaping; for
any source path containing a space, shell word splitting breaks the path
across arguments, so it is not passed to the compiler as a single
argument. -/
theorem c10 : ∀ sandbox_dir file_path : Str,
    (compile_call sandbox_dir file_path).shell = true
  ∧ (run_call sandbox_dir).shell = true
  ∧ (compile_call sandbox_dir file_path).cmd
      = "g++ -std=c++11 -o ".data ++ sandbox_dir ++ "/program ".data ++ file_path
  ∧ (run_call sandbox_dir).cmd = sandbox_dir ++ "/program".data
  ∧ (' ' ∈ file_path →
       file_path ∉ shellSplit (compile_call sandbox_dir file_path).cmd) := by
  intro sandbox_dir file_path
  refine ⟨rfl, rfl, rfl, rfl, ?_⟩
  intro hsp hmem
  exact shellSplit_no_space (compile_call sandbox_dir file_path).cmd file_path hmem hsp

/-- C10 witness: the concrete path `/home/u/my file.cpp` contains a space
and is not among the argument words of the compile command. -/
theorem c10_witness :
    ' ' ∈ "/home/u/my file.cpp".data
  ∧ "/home/u/my file.cpp".data
      ∉ shellSplit (compile_call "/tmp/sb".data "/home/u/my file.cpp".data).cmd :=
  ⟨by decide,
   (c10 "/tmp/sb".data "/home/u/my file.cpp".data).2.2.2.2 (by decide)⟩

end SmartTA
